import Mathlib

/-!
Verification development for the bball_tracker repository.

The definitions below are a shallow embedding of the data model and of the
aggregation/metric logic found in `db_helpers.py` and
`simple_basketball_tracker_mysql.py`: database tables become lists of rows,
SQL aggregation queries become list functions, and the pandas computations of
the Analytics page become functions over `ℚ` (with an explicit value type for
the IEEE special values pandas produces on division by zero).
-/

namespace BBallTracker

/-- Possession outcome values of the simple possession model; the tracking UI
only ever stores "GOOD", "NEUTRAL" or "FAILED". -/
inductive Outcome
  | GOOD
  | NEUTRAL
  | FAILED
deriving DecidableEq, Repr

/-- Failure reasons offered by the "If Failed, Why?" selectbox of the Game
Tracker page. -/
inductive FailureReason
  | Turnover
  | Ball_Advancement
  | Shot_Selection
  | Bad_Process
deriving DecidableEq, Repr

/-- Row of the `possessions` table as written by `add_possession`
(`time_remaining` is omitted: the tracking flow always passes `None` for it
and no claim reads it; `players_on_court` is the JSON-serialized list). -/
structure Possession where
  game_id : Nat
  quarter : Nat
  outcome : Outcome
  failure_type : Option FailureReason
  players_on_court : List Nat
deriving DecidableEq, Repr

/-- Buttons of the "Track Possession" panel: GOOD and NEUTRAL pass `None` as
failure type, FAILED passes the selectbox value. -/
inductive TrackAction
  | good
  | neutral
  | failed (why : FailureReason)
deriving DecidableEq, Repr

/-- Possession record inserted by the Track Possession buttons
(`add_possession(game_id, quarter, None, outcome, failure_type, selected_players)`). -/
def trackPossession (game_id quarter : Nat) (players : List Nat) :
    TrackAction → Possession
  | .good => ⟨game_id, quarter, .GOOD, none, players⟩
  | .neutral => ⟨game_id, quarter, .NEUTRAL, none, players⟩
  | .failed why => ⟨game_id, quarter, .FAILED, some why, players⟩

/-- Stat fields of a `player_game_stats` row. -/
structure PlayerStats where
  minutes_played : Nat
  points : Nat
  assists : Nat
  rebounds_offensive : Nat
  rebounds_defensive : Nat
  turnovers : Nat
  steals : Nat
  blocks : Nat
  fouls : Nat
deriving DecidableEq, Repr

/-- Stats record built by the "Save Player Stats" handler of the Quick Player
Stats Entry expander: the single Rebounds number is split as
`rebounds // 2` offensive and `rebounds - rebounds // 2` defensive. -/
def saveQuickStats (minutes points assists rebounds turnovers steals blocks fouls :
    Nat) : PlayerStats :=
  { minutes_played := minutes
    points := points
    assists := assists
    rebounds_offensive := rebounds / 2
    rebounds_defensive := rebounds - rebounds / 2
    turnovers := turnovers
    steals := steals
    blocks := blocks
    fouls := fouls }

/-- Column `total_rebounds` of the Player Performance table. -/
def total_rebounds (s : PlayerStats) : Nat :=
  s.rebounds_offensive + s.rebounds_defensive

/-- Column `net_impact` of the Player Performance table:
`points + assists*2 + total_rebounds + steals - turnovers*2 - fouls`. -/
def net_impact (s : PlayerStats) : Int :=
  (s.points : Int) + (s.assists : Int) * 2 + (total_rebounds s : Int)
    + (s.steals : Int) - (s.turnovers : Int) * 2 - (s.fouls : Int)

/-- Rounding to one decimal place over the rationals (the claims only apply it
away from ties, where every float/SQL rounding mode agrees). -/
def round1 (q : ℚ) : ℚ := (round (q * 10) : ℤ) / 10

/-- Result of a pandas floating-point computation: a finite value, or one of
the IEEE special values produced by division by zero. -/
inductive PandasVal
  | val (q : ℚ)
  | posInf
  | negInf
  | nan
deriving DecidableEq, Repr

/-- Column `net_impact_per_10` of the Player Performance table:
`(net_impact / minutes_played * 10).round(1)`. The source divides with no
zero guard, so a row with `minutes_played = 0` yields an IEEE infinity (NaN
for a zero numerator) rather than an absent value. -/
def net_impact_per_10 (s : PlayerStats) : PandasVal :=
  if s.minutes_played = 0 then
    if 0 < net_impact s then .posInf
    else if net_impact s < 0 then .negInf
    else .nan
  else .val (round1 ((net_impact s : ℚ) / (s.minutes_played : ℚ) * 10))

/-- Descending order on a key, as produced by
`sort_values(key, ascending=False)` and SQL `ORDER BY key DESC`. -/
def descBy {α β : Type} [LinearOrder β] (f : α → β) (a b : α) : Prop := f b ≤ f a

instance descBy.instDecidableRel {α β : Type} [LinearOrder β] {f : α → β} :
    DecidableRel (descBy f) :=
  fun a b => inferInstanceAs (Decidable (f b ≤ f a))

instance descBy.instIsTotal {α β : Type} [LinearOrder β] {f : α → β} :
    IsTotal α (descBy f) :=
  ⟨fun a b => le_total (f b) (f a)⟩

instance descBy.instIsTrans {α β : Type} [LinearOrder β] {f : α → β} :
    IsTrans α (descBy f) :=
  ⟨fun _ _ _ h1 h2 => le_trans h2 h1⟩

/-- Player Performance display order:
`sort_values('net_impact', ascending=False)`. -/
def rankByNetImpact (rows : List PlayerStats) : List PlayerStats :=
  List.insertionSort (descBy net_impact) rows

/-- Stat line used as the worked example of the spec. -/
def sampleStatLine : PlayerStats :=
  { minutes_played := 20
    points := 10
    assists := 3
    rebounds_offensive := 2
    rebounds_defensive := 4
    turnovers := 2
    steals := 1
    blocks := 0
    fouls := 3 }

/-- Possession efficiency shown by the live Game Tracker summary and the
Analytics page: `good/total*100`, computed only inside the
`if not possessions_df.empty` branch, so an empty possession set yields no
value ("no data") rather than a division. -/
def possession_efficiency (ps : List Possession) : Option ℚ :=
  if ps.length = 0 then none
  else some ((ps.countP (fun p => decide (p.outcome = .GOOD)) : ℚ) /
    (ps.length : ℚ) * 100)

/-- Waste rate shown by the live Game Tracker summary and the Analytics page:
`failed/total*100`, under the same emptiness guard. -/
def waste_rate (ps : List Possession) : Option ℚ :=
  if ps.length = 0 then none
  else some ((ps.countP (fun p => decide (p.outcome = .FAILED)) : ℚ) /
    (ps.length : ℚ) * 100)

/-- Neutral rate, the complement rate of the third outcome value, following
the same `count/total*100` pattern and the same emptiness guard as the two
rates the source displays. -/
def neutral_rate (ps : List Possession) : Option ℚ :=
  if ps.length = 0 then none
  else some ((ps.countP (fun p => decide (p.outcome = .NEUTRAL)) : ℚ) /
    (ps.length : ℚ) * 100)

/-- Grouping with per-group row counts, the list form of
`SELECT key, COUNT(*) FROM t GROUP BY key`: one entry per distinct key of
the input, paired with the number of rows carrying that key. -/
def groupCounts {α κ : Type} [DecidableEq κ] (key : α → κ) (l : List α) :
    List (κ × Nat) :=
  ((l.map key).dedup).map (fun k => (k, l.countP (fun a => decide (key a = k))))

/-- Rows scanned by `get_constraint_analysis`: possessions of the given game
whose outcome is FAILED (`WHERE game_id = :game_id AND outcome = 'FAILED'`). -/
def failedPossessions (db : List Possession) (game_id : Nat) : List Possession :=
  db.filter (fun p => decide (p.game_id = game_id) && decide (p.outcome = .FAILED))

/-- Embedding of `get_constraint_analysis`: group the game's FAILED
possessions by `failure_type`, count each group, and order the groups by
count descending (`GROUP BY failure_type ORDER BY count DESC`). -/
def get_constraint_analysis (db : List Possession) (game_id : Nat) :
    List (Option FailureReason × Nat) :=
  List.insertionSort (descBy Prod.snd)
    (groupCounts (fun p => p.failure_type) (failedPossessions db game_id))

/-- Row of the `detailed_possessions` table as written by
`add_detailed_possession` (fields the lineup-performance query does not read
are omitted; `lineup` is stored serialized with `json.dumps`, which on lists
of integers is injective and order-preserving, so the string key of
`GROUP BY lineup` is modelled by the id list itself). -/
structure DetailedPossession where
  game_id : Nat
  quarter : Nat
  time_elapsed_seconds : Nat
  lineup : List Nat
  outcome : Option String
  points_scored : Nat
deriving DecidableEq, Repr

/-- Statistics row produced by `get_lineup_performance` for one lineup group:
the lineup key, `COUNT(*)`, the count of `outcome = 'SCORE'` rows, and
`SUM(points_scored)`. -/
def lineupRow (rows : List DetailedPossession) (k : List Nat) :
    List Nat × Nat × Nat × Nat :=
  let grp := rows.filter (fun d => decide (d.lineup = k))
  (k, grp.length,
    grp.countP (fun d => decide (d.outcome = some "SCORE")),
    (grp.map (fun d => d.points_scored)).sum)

/-- Rows scanned by `get_lineup_performance`: all detailed possessions, or
those of one game when the optional `game_id` filter is passed. -/
def lineupScope (db : List DetailedPossession) (game_id : Option Nat) :
    List DetailedPossession :=
  match game_id with
  | some g => db.filter (fun d => decide (d.game_id = g))
  | none => db

/-- Embedding of `get_lineup_performance`: optionally filter to one game,
group by the serialized lineup value, aggregate each group, and order by
total points descending (`GROUP BY lineup ORDER BY total_points DESC`). -/
def get_lineup_performance (db : List DetailedPossession) (game_id : Option Nat) :
    List (List Nat × Nat × Nat × Nat) :=
  List.insertionSort (descBy (fun r => r.2.2.2))
    ((((lineupScope db game_id).map (fun d => d.lineup)).dedup).map
      (lineupRow (lineupScope db game_id)))

/-- Row of the `shots` table as written by `add_shot` (the `player_name` and
`jersey_number` columns joined in for display are omitted: grouping is on
`p.player_id`, and the final `ORDER BY p.player_name, s.shot_type` display
order is not modelled since no claim reads it). -/
structure Shot where
  game_id : Nat
  player_id : Nat
  quarter : Nat
  time_elapsed_seconds : Nat
  shot_type : String
  shot_quality : String
  made : Bool
deriving DecidableEq, Repr

/-- Grouping key of `get_player_shooting_stats`:
`GROUP BY p.player_id, s.shot_type, s.shot_quality`. -/
def shotKey (s : Shot) : Nat × String × String :=
  (s.player_id, s.shot_type, s.shot_quality)

/-- Statistics row produced by `get_player_shooting_stats` for one group:
`COUNT(*)` attempts, `SUM(CASE WHEN s.made THEN 1 ELSE 0 END)` makes, and
`ROUND(makes * 100.0 / COUNT(*), 1)` field-goal percentage. -/
def shootingRow (rows : List Shot) (k : Nat × String × String) :
    (Nat × String × String) × Nat × Nat × ℚ :=
  let grp := rows.filter (fun s => decide (shotKey s = k))
  (k, grp.length, grp.countP (fun s => s.made),
    round1 ((grp.countP (fun s => s.made) : ℚ) * 100 / (grp.length : ℚ)))

/-- Rows scanned by `get_player_shooting_stats`: all shots, or those of one
game when the optional `game_id` filter is passed. -/
def shotScope (db : List Shot) (game_id : Option Nat) : List Shot :=
  match game_id with
  | some g => db.filter (fun s => decide (s.game_id = g))
  | none => db

/-- Embedding of `get_player_shooting_stats`: optionally filter to one game,
then one row per distinct (player, shot type, shot quality) group. -/
def get_player_shooting_stats (db : List Shot) (game_id : Option Nat) :
    List ((Nat × String × String) × Nat × Nat × ℚ) :=
  (((shotScope db game_id).map shotKey).dedup).map
    (shootingRow (shotScope db game_id))

/-- Row of the `player_game_stats` table: the `(game_id, player_id)` primary
key plus the stat fields. -/
structure PlayerGameStatsRow where
  game_id : Nat
  player_id : Nat
  stats : PlayerStats
deriving DecidableEq, Repr

/-- Unique key of `player_game_stats`. -/
def rowKey (r : PlayerGameStatsRow) : Nat × Nat := (r.game_id, r.player_id)

/-- Embedding of `upsert_player_stats`
(`INSERT ... ON DUPLICATE KEY UPDATE` on key `(game_id, player_id)`): when a
row with the key exists it is rewritten in place with every stat field set to
the new values, otherwise a fresh row is appended. -/
def upsert_player_stats (table : List PlayerGameStatsRow) (game_id player_id : Nat)
    (stats : PlayerStats) : List PlayerGameStatsRow :=
  if table.any (fun r => decide (rowKey r = (game_id, player_id))) then
    table.map (fun r =>
      if rowKey r = (game_id, player_id) then ⟨game_id, player_id, stats⟩ else r)
  else
    table ++ [⟨game_id, player_id, stats⟩]

/-- Key-uniqueness invariant of `player_game_stats`: at most one row per
`(game_id, player_id)` pair. -/
def uniqueKeyed (table : List PlayerGameStatsRow) : Prop :=
  (table.map rowKey).Nodup

/-- Row of the `teams` table. -/
structure Team where
  team_id : Nat
  team_name : String
  season : String
deriving DecidableEq, Repr

/-- State of the `teams` table, held newest-first: `get_teams` reads it with
`ORDER BY created_at DESC` and rows are created at increasing timestamps, so
creation prepends. `next_id` is the auto-increment counter. -/
structure TeamsDB where
  teams : List Team
  next_id : Nat
deriving DecidableEq, Repr

/-- Embedding of `create_team`: insert a row and return its fresh id. -/
def create_team (db : TeamsDB) (team_name season : String) : Nat × TeamsDB :=
  (db.next_id, ⟨⟨db.next_id, team_name, season⟩ :: db.teams, db.next_id + 1⟩)

/-- Embedding of `get_current_team_id`: the id of the first row of
`get_teams` (most recently created team), or `None` when no team exists. -/
def get_current_team_id (db : TeamsDB) : Option Nat :=
  db.teams.head?.map (fun t => t.team_id)

/-- Team bootstrap of the app startup: resolve the current team id, creating
a team with placeholder name and season when none exists. -/
def resolveCurrentTeam (db : TeamsDB) : Nat × TeamsDB :=
  match get_current_team_id db with
  | some id => (id, db)
  | none => create_team db "My Team" "2024-25"

/-- C10: the Quick Player Stats entry form accepts one total-rebounds number
and stores the split `rebounds_offensive = R / 2`,
`rebounds_defensive = R - R / 2`; the stored pair always sums to `R` and the
defensive part is never smaller than the offensive part, for every choice of
the other form fields. -/
theorem quick_stats_rebound_split
    (minutes points assists rebounds turnovers steals blocks fouls : Nat) :
    (saveQuickStats minutes points assists rebounds turnovers steals blocks
        fouls).rebounds_offensive = rebounds / 2 ∧
    (saveQuickStats minutes points assists rebounds turnovers steals blocks
        fouls).rebounds_defensive = rebounds - rebounds / 2 ∧
    (saveQuickStats minutes points assists rebounds turnovers steals blocks
        fouls).rebounds_offensive +
      (saveQuickStats minutes points assists rebounds turnovers steals blocks
        fouls).rebounds_defensive = rebounds ∧
    (saveQuickStats minutes points assists rebounds turnovers steals blocks
        fouls).rebounds_offensive ≤
      (saveQuickStats minutes points assists rebounds turnovers steals blocks
        fouls).rebounds_defensive := by
  refine ⟨rfl, rfl, ?_, ?_⟩ <;> simp only [saveQuickStats] <;> omega

/-- C9: a possession recorded through the Track Possession buttons stores the
failure reason as absent for GOOD and NEUTRAL outcomes, and stores one of the
four selectbox failure reasons exactly when the outcome is FAILED. -/
theorem tracked_possession_failure_reason
    (game_id quarter : Nat) (players : List Nat) (a : TrackAction) :
    ((trackPossession game_id quarter players a).outcome = .GOOD ∨
      (trackPossession game_id quarter players a).outcome = .NEUTRAL →
        (trackPossession game_id quarter players a).failure_type = none) ∧
    ((trackPossession game_id quarter players a).outcome = .FAILED →
      ∃ r : FailureReason,
        (trackPossession game_id quarter players a).failure_type = some r ∧
        (r = .Turnover ∨ r = .Ball_Advancement ∨ r = .Shot_Selection ∨
          r = .Bad_Process)) := by
  cases a with
  | good => exact ⟨fun _ => rfl, by intro h; cases h⟩
  | neutral => exact ⟨fun _ => rfl, by intro h; cases h⟩
  | failed why =>
    refine ⟨by intro h; cases h <;> simp [trackPossession] at *, ?_⟩
    intro _
    exact ⟨why, rfl, by cases why <;> simp⟩

/-- Closed instance of the C9 theorem at a concrete tracked possession. -/
theorem tracked_possession_failure_reason_witness :
    ((trackPossession 1 1 [] .good).outcome = .GOOD ∨
      (trackPossession 1 1 [] .good).outcome = .NEUTRAL) ∧
    (trackPossession 1 1 [] .good).failure_type = none :=
  ⟨Or.inl rfl, (tracked_possession_failure_reason 1 1 [] .good).1 (Or.inl rfl)⟩

/-- C1: `net_impact` is the fixed linear form
`points + 2*assists + (rebounds_offensive + rebounds_defensive) + steals
- 2*turnovers - fouls` (blocks do not occur in it); on the spec's sample stat
line it equals 16 with `net_impact_per_10 = 8.0`; and the Player Performance
ranking is sorted descending by `net_impact`. -/
theorem net_impact_spec :
    (∀ s : PlayerStats, net_impact s =
      (s.points : Int) + 2 * (s.assists : Int) +
        ((s.rebounds_offensive : Int) + (s.rebounds_defensive : Int)) +
        (s.steals : Int) - 2 * (s.turnovers : Int) - (s.fouls : Int)) ∧
    (∀ (s : PlayerStats) (b : Nat),
      net_impact { s with blocks := b } = net_impact s) ∧
    net_impact sampleStatLine = 16 ∧
    net_impact_per_10 sampleStatLine = .val 8 ∧
    (∀ rows : List PlayerStats,
      List.Sorted (descBy net_impact) (rankByNetImpact rows)) := by
  refine ⟨?_, fun s b => rfl, by decide, ?_, ?_⟩
  · intro s
    simp only [net_impact, total_rebounds]
    push_cast
    ring
  · simp [net_impact_per_10, sampleStatLine, round1, net_impact, total_rebounds]
    norm_num [round_eq, Int.floor_eq_iff]
  · intro rows
    exact List.sorted_insertionSort (descBy net_impact) rows

/-- C8: creating a team makes it the one current-team resolution returns;
with zero teams, resolution creates exactly one placeholder team and returns
its id, and resolving again returns the same id without creating another
team. -/
theorem current_team_resolution :
    (∀ (db : TeamsDB) (team_name season : String),
      resolveCurrentTeam (create_team db team_name season).2 =
        ((create_team db team_name season).1,
          (create_team db team_name season).2)) ∧
    (∀ db : TeamsDB, db.teams = [] →
      (resolveCurrentTeam db).2.teams =
          [⟨db.next_id, "My Team", "2024-25"⟩] ∧
        (resolveCurrentTeam db).1 = db.next_id ∧
        resolveCurrentTeam (resolveCurrentTeam db).2 =
          ((resolveCurrentTeam db).1, (resolveCurrentTeam db).2)) := by
  constructor
  · intro db team_name season
    rfl
  · intro db h
    obtain ⟨teams, next_id⟩ := db
    simp only at h
    subst h
    exact ⟨rfl, rfl, rfl⟩

/-- Closed instance of the C8 theorem on an empty teams table. -/
theorem current_team_resolution_witness :
    (TeamsDB.mk [] 1).teams = [] ∧
    ((resolveCurrentTeam ⟨[], 1⟩).2.teams = [⟨1, "My Team", "2024-25"⟩] ∧
      (resolveCurrentTeam ⟨[], 1⟩).1 = 1 ∧
      resolveCurrentTeam (resolveCurrentTeam ⟨[], 1⟩).2 =
        ((resolveCurrentTeam ⟨[], 1⟩).1, (resolveCurrentTeam ⟨[], 1⟩).2)) :=
  ⟨rfl, current_team_resolution.2 ⟨[], 1⟩ rfl⟩

/-- Counts of the three possession outcome values partition a possession
list. -/
theorem countP_outcome_partition (ps : List Possession) :
    ps.countP (fun p => decide (p.outcome = Outcome.GOOD)) +
      ps.countP (fun p => decide (p.outcome = Outcome.NEUTRAL)) +
      ps.countP (fun p => decide (p.outcome = Outcome.FAILED)) = ps.length := by
  induction ps with
  | nil => rfl
  | cons p t ih =>
    simp only [List.countP_cons, List.length_cons]
    rcases h : p.outcome <;> simp [h] <;> omega

/-- C2: on a non-empty possession set the efficiency and waste rate are the
GOOD and FAILED shares of the total, both scaled to percent, and together
with the neutral rate they sum to exactly 100; on an empty set all three
rates are absent. -/
theorem possession_rates_spec (ps : List Possession) :
    (0 < ps.length →
      ∃ e w n : ℚ,
        possession_efficiency ps = some e ∧
        waste_rate ps = some w ∧
        neutral_rate ps = some n ∧
        e = (ps.countP (fun p => decide (p.outcome = .GOOD)) : ℚ) /
          (ps.length : ℚ) * 100 ∧
        w = (ps.countP (fun p => decide (p.outcome = .FAILED)) : ℚ) /
          (ps.length : ℚ) * 100 ∧
        e + w + n = 100) ∧
    (ps.length = 0 →
      possession_efficiency ps = none ∧ waste_rate ps = none ∧
        neutral_rate ps = none) := by
  constructor
  · intro h
    have hne : ps.length ≠ 0 := Nat.pos_iff_ne_zero.mp h
    refine ⟨(ps.countP (fun p => decide (p.outcome = Outcome.GOOD)) : ℚ) /
        (ps.length : ℚ) * 100,
      (ps.countP (fun p => decide (p.outcome = Outcome.FAILED)) : ℚ) /
        (ps.length : ℚ) * 100,
      (ps.countP (fun p => decide (p.outcome = Outcome.NEUTRAL)) : ℚ) /
        (ps.length : ℚ) * 100,
      by simp [possession_efficiency, hne],
      by simp [waste_rate, hne],
      by simp [neutral_rate, hne], rfl, rfl, ?_⟩
    have hpart := countP_outcome_partition ps
    have hcast : ((ps.countP (fun p => decide (p.outcome = Outcome.GOOD)) : ℚ) +
        (ps.countP (fun p => decide (p.outcome = Outcome.NEUTRAL)) : ℚ) +
        (ps.countP (fun p => decide (p.outcome = Outcome.FAILED)) : ℚ)) =
        (ps.length : ℚ) := by
      exact_mod_cast congrArg (fun n : Nat => (n : ℚ)) hpart
    have hl : (ps.length : ℚ) ≠ 0 := Nat.cast_ne_zero.mpr hne
    field_simp
    linarith
  · intro h
    simp [possession_efficiency, waste_rate, neutral_rate, h]

/-- Closed instance of the C2 theorem on a one-possession list. -/
theorem possession_rates_spec_witness :
    0 < ([⟨1, 1, .GOOD, none, []⟩] : List Possession).length ∧
    (∃ e w n : ℚ,
      possession_efficiency [⟨1, 1, .GOOD, none, []⟩] = some e ∧
      waste_rate [⟨1, 1, .GOOD, none, []⟩] = some w ∧
      neutral_rate [⟨1, 1, .GOOD, none, []⟩] = some n ∧
      e = (([⟨1, 1, .GOOD, none, []⟩] : List Possession).countP
          (fun p => decide (p.outcome = .GOOD)) : ℚ) /
        (([⟨1, 1, .GOOD, none, []⟩] : List Possession).length : ℚ) * 100 ∧
      w = (([⟨1, 1, .GOOD, none, []⟩] : List Possession).countP
          (fun p => decide (p.outcome = .FAILED)) : ℚ) /
        (([⟨1, 1, .GOOD, none, []⟩] : List Possession).length : ℚ) * 100 ∧
      e + w + n = 100) :=
  ⟨by decide, (possession_rates_spec [⟨1, 1, .GOOD, none, []⟩]).1 (by decide)⟩

/-- Stat line exhibiting the unguarded division of the Analytics page: zero
minutes played with a positive net impact. -/
def zeroMinutesLine : PlayerStats :=
  { minutes_played := 0
    points := 1
    assists := 0
    rebounds_offensive := 0
    rebounds_defensive := 0
    turnovers := 0
    steals := 0
    blocks := 0
    fouls := 0 }

/-- C5: the possession-rate computations are guarded (an empty possession set
yields absent values, not a division), but `net_impact_per_10` is not: a stat
line with `minutes_played = 0` and positive `net_impact` is divided anyway
and produces an IEEE infinity instead of an absent "no data" value, contrary
to the stated zero-denominator contract. -/
theorem zero_denominator_guards :
    possession_efficiency [] = none ∧
    waste_rate [] = none ∧
    neutral_rate [] = none ∧
    net_impact zeroMinutesLine = 1 ∧
    net_impact_per_10 zeroMinutesLine = .posInf := by
  refine ⟨rfl, rfl, rfl, by decide, ?_⟩
  simp [net_impact_per_10, zeroMinutesLine, net_impact, total_rebounds]

/-- Entries of `groupCounts` carry the number of input rows with their key. -/
theorem groupCounts_mem_count {α κ : Type} [DecidableEq κ] {key : α → κ}
    {l : List α} {x : κ × Nat} (hx : x ∈ groupCounts key l) :
    x.2 = l.countP (fun a => decide (key a = x.1)) := by
  obtain ⟨k, _, hEq⟩ := List.mem_map.mp hx
  subst hEq
  rfl

/-- Keys of `groupCounts` are the deduplicated keys of the input. -/
theorem groupCounts_map_fst {α κ : Type} [DecidableEq κ] (key : α → κ)
    (l : List α) :
    (groupCounts key l).map Prod.fst = (l.map key).dedup := by
  rw [groupCounts, List.map_map]
  exact List.map_id _

/-- Fixed constraint-analysis input of the spec: two FAILED Turnover
possessions, one FAILED Shot_Selection possession, one GOOD possession, all
in game 1. -/
def sampleGamePossessions : List Possession :=
  [⟨1, 1, .FAILED, some .Turnover, []⟩,
   ⟨1, 1, .FAILED, some .Turnover, []⟩,
   ⟨1, 1, .FAILED, some .Shot_Selection, []⟩,
   ⟨1, 1, .GOOD, none, []⟩]

/-- C3: constraint analysis counts, for each failure reason, exactly the
possessions of the requested game with outcome FAILED and that reason, lists
each occurring reason once, ranks the reasons descending by count, and on the
spec's fixed input yields `[Turnover: 2, Shot_Selection: 1]` with Turnover
surfaced on top. -/
theorem constraint_analysis_spec :
    (∀ (db : List Possession) (g : Nat),
      List.Sorted (descBy Prod.snd) (get_constraint_analysis db g) ∧
      (∀ x ∈ get_constraint_analysis db g,
        x.2 = db.countP (fun p =>
          decide (p.game_id = g) && decide (p.outcome = .FAILED) &&
            decide (p.failure_type = x.1))) ∧
      ((get_constraint_analysis db g).map Prod.fst).Nodup) ∧
    get_constraint_analysis sampleGamePossessions 1 =
      [(some .Turnover, 2), (some .Shot_Selection, 1)] ∧
    (get_constraint_analysis sampleGamePossessions 1).head? =
      some (some .Turnover, 2) := by
  refine ⟨fun db g => ⟨List.sorted_insertionSort _ _, ?_, ?_⟩, by decide,
    by decide⟩
  · intro x hx
    have hx' : x ∈ groupCounts (fun p => p.failure_type)
        (failedPossessions db g) :=
      (List.mem_insertionSort (descBy Prod.snd)).mp hx
    rw [groupCounts_mem_count hx', failedPossessions, List.countP_filter]
    refine List.countP_congr ?_
    intro p _
    simp only [Bool.and_eq_true, decide_eq_true_eq]
    tauto
  · have hperm : List.Perm (get_constraint_analysis db g)
        (groupCounts (fun p => p.failure_type) (failedPossessions db g)) :=
      List.perm_insertionSort _ _
    have hmap := hperm.map Prod.fst
    rw [hmap.nodup_iff, groupCounts_map_fst]
    exact List.nodup_dedup _

/-- Closed instance of the C3 theorem at the top-ranked entry of the fixed
input. -/
theorem constraint_analysis_spec_witness :
    (some FailureReason.Turnover, 2) ∈
      get_constraint_analysis sampleGamePossessions 1 ∧
    (2 : Nat) = sampleGamePossessions.countP (fun p =>
      decide (p.game_id = 1) && decide (p.outcome = .FAILED) &&
        decide (p.failure_type = some FailureReason.Turnover)) :=
  ⟨by decide,
    (constraint_analysis_spec.1 sampleGamePossessions 1).2.1
      (some FailureReason.Turnover, 2) (by decide)⟩

/-- Sample shot log: five shots of one (player, type, quality) group, three
of them made. -/
def sampleShots : List Shot :=
  [⟨1, 7, 1, 10, "3PT", "Open", true⟩,
   ⟨1, 7, 1, 20, "3PT", "Open", true⟩,
   ⟨1, 7, 2, 30, "3PT", "Open", false⟩,
   ⟨1, 7, 3, 40, "3PT", "Open", true⟩,
   ⟨1, 7, 4, 50, "3PT", "Open", false⟩]

/-- C6: every shooting-stats row groups the in-scope shots by
(player, shot type, shot quality) and reports the group's attempt count, make
count, and `round1(makes * 100 / attempts)`; a group always has at least one
attempt, so the zero-attempt case never produces a row; 3 makes out of 5
attempts report 60.0. -/
theorem shooting_stats_spec :
    (∀ (db : List Shot) (g : Option Nat)
      (e : (Nat × String × String) × Nat × Nat × ℚ),
      e ∈ get_player_shooting_stats db g →
        e.2.1 = (shotScope db g).countP (fun s => decide (shotKey s = e.1)) ∧
        e.2.2.1 = (shotScope db g).countP
          (fun s => decide (shotKey s = e.1) && s.made) ∧
        e.2.2.2 = round1 ((e.2.2.1 : ℚ) * 100 / (e.2.1 : ℚ)) ∧
        0 < e.2.1) ∧
    get_player_shooting_stats sampleShots none =
      [((7, "3PT", "Open"), 5, 3, (60 : ℚ))] := by
  constructor
  · intro db g e he
    obtain ⟨k, hk, hEq⟩ := List.mem_map.mp he
    subst hEq
    simp only [shootingRow]
    refine ⟨?_, ?_, by trivial, ?_⟩
    · rw [List.countP_eq_length_filter]
    · rw [List.countP_filter]
      refine List.countP_congr ?_
      intro s _
      simp only [Bool.and_eq_true, decide_eq_true_eq]
      tauto
    · obtain ⟨s, hs, hks⟩ := List.mem_map.mp (List.mem_dedup.mp hk)
      exact List.length_pos_of_mem (List.mem_filter.mpr ⟨hs, by simp [hks]⟩)
  · have h1 : get_player_shooting_stats sampleShots none =
        [shootingRow (shotScope sampleShots none) (7, "3PT", "Open")] := rfl
    have h2 : shootingRow (shotScope sampleShots none) (7, "3PT", "Open") =
        ((7, "3PT", "Open"), 5, 3,
          round1 (((3 : ℕ) : ℚ) * 100 / ((5 : ℕ) : ℚ))) := rfl
    rw [h1, h2]
    simp only [List.cons.injEq, Prod.mk.injEq]
    norm_num [round1, round_eq, Int.floor_eq_iff]

/-- Closed instance of the C6 theorem at the single group of the sample shot
log. -/
theorem shooting_stats_spec_witness :
    ((7, "3PT", "Open"), 5, 3, (60 : ℚ)) ∈
      get_player_shooting_stats sampleShots none ∧
    ((((7, "3PT", "Open"), 5, 3, (60 : ℚ)) :
        (Nat × String × String) × Nat × Nat × ℚ).2.1 =
        (shotScope sampleShots none).countP
          (fun s => decide (shotKey s = (7, "3PT", "Open"))) ∧
      ((((7, "3PT", "Open"), 5, 3, (60 : ℚ)) :
        (Nat × String × String) × Nat × Nat × ℚ)).2.2.1 =
        (shotScope sampleShots none).countP
          (fun s => decide (shotKey s = (7, "3PT", "Open")) && s.made) ∧
      ((((7, "3PT", "Open"), 5, 3, (60 : ℚ)) :
        (Nat × String × String) × Nat × Nat × ℚ)).2.2.2 =
        round1 (((3 : ℕ) : ℚ) * 100 / ((5 : ℕ) : ℚ)) ∧
      0 < ((((7, "3PT", "Open"), 5, 3, (60 : ℚ)) :
        (Nat × String × String) × Nat × Nat × ℚ)).2.1) := by
  have hmem : ((7, "3PT", "Open"), 5, 3, (60 : ℚ)) ∈
      get_player_shooting_stats sampleShots none := by
    rw [shooting_stats_spec.2]
    exact List.mem_singleton.mpr rfl
  exact ⟨hmem, shooting_stats_spec.1 sampleShots none _ hmem⟩

/-- Sample detailed-possession log: two possessions whose lineups hold the
same five player ids serialized in different orders. -/
def sampleLineupDb : List DetailedPossession :=
  [⟨1, 1, 0, [1, 2, 3, 4, 5], some "SCORE", 2⟩,
   ⟨1, 1, 10, [2, 1, 3, 4, 5], some "SCORE", 2⟩]

/-- C7: lineup performance groups detailed possessions by the exact
serialized lineup value, reporting per group the possession count, the count
of SCORE outcomes and the summed points; two possessions holding the same
player ids in different order land in two distinct groups. -/
theorem lineup_performance_spec :
    (∀ (db : List DetailedPossession) (g : Option Nat)
      (e : List Nat × Nat × Nat × Nat),
      e ∈ get_lineup_performance db g →
        e.2.1 = (lineupScope db g).countP (fun d => decide (d.lineup = e.1)) ∧
        e.2.2.1 = (lineupScope db g).countP (fun d =>
          decide (d.lineup = e.1) && decide (d.outcome = some "SCORE")) ∧
        e.2.2.2 = (((lineupScope db g).filter
          (fun d => decide (d.lineup = e.1))).map
            (fun d => d.points_scored)).sum) ∧
    get_lineup_performance sampleLineupDb none =
      [([1, 2, 3, 4, 5], 1, 1, 2), ([2, 1, 3, 4, 5], 1, 1, 2)] := by
  constructor
  · intro db g e he
    have he' := (List.mem_insertionSort
      (descBy (fun r : List Nat × Nat × Nat × Nat => r.2.2.2))).mp he
    obtain ⟨k, hk, hEq⟩ := List.mem_map.mp he'
    subst hEq
    simp only [lineupRow]
    refine ⟨?_, ?_, by trivial⟩
    · rw [List.countP_eq_length_filter]
    · rw [List.countP_filter]
      refine List.countP_congr ?_
      intro d _
      simp only [Bool.and_eq_true, decide_eq_true_eq]
      tauto
  · decide

/-- Closed instance of the C7 theorem at the first group of the sample log. -/
theorem lineup_performance_spec_witness :
    ([1, 2, 3, 4, 5], 1, 1, 2) ∈ get_lineup_performance sampleLineupDb none ∧
    ((([1, 2, 3, 4, 5], 1, 1, 2) : List Nat × Nat × Nat × Nat).2.1 =
        (lineupScope sampleLineupDb none).countP
          (fun d => decide (d.lineup = [1, 2, 3, 4, 5])) ∧
      (([1, 2, 3, 4, 5], 1, 1, 2) : List Nat × Nat × Nat × Nat).2.2.1 =
        (lineupScope sampleLineupDb none).countP (fun d =>
          decide (d.lineup = [1, 2, 3, 4, 5]) &&
            decide (d.outcome = some "SCORE")) ∧
      (([1, 2, 3, 4, 5], 1, 1, 2) : List Nat × Nat × Nat × Nat).2.2.2 =
        (((lineupScope sampleLineupDb none).filter
          (fun d => decide (d.lineup = [1, 2, 3, 4, 5]))).map
            (fun d => d.points_scored)).sum) :=
  ⟨by decide, lineup_performance_spec.1 sampleLineupDb none _ (by decide)⟩

/-- Upserting preserves the key-uniqueness invariant of
`player_game_stats`. -/
theorem uniqueKeyed_upsert (t : List PlayerGameStatsRow) (g p : Nat)
    (s : PlayerStats) (h : uniqueKeyed t) :
    uniqueKeyed (upsert_player_stats t g p s) := by
  unfold upsert_player_stats
  by_cases han : t.any (fun r => decide (rowKey r = (g, p))) = true
  · simp only [han, if_true]
    have hmap : (t.map (fun r =>
        if rowKey r = (g, p) then ⟨g, p, s⟩ else r)).map rowKey =
        t.map rowKey := by
      rw [List.map_map]
      refine List.map_congr_left ?_
      intro r _
      simp only [Function.comp_apply]
      by_cases hr : rowKey r = (g, p)
      · rw [if_pos hr]
        exact hr.symm
      · rw [if_neg hr]
    unfold uniqueKeyed
    rw [hmap]
    exact h
  · have han' : t.any (fun r => decide (rowKey r = (g, p))) = false :=
      Bool.eq_false_iff.mpr han
    simp only [han', Bool.false_eq_true, if_false]
    unfold uniqueKeyed
    rw [List.map_append]
    rw [List.nodup_append]
    refine ⟨h, List.nodup_singleton _, ?_⟩
    intro a ha hb
    have ha' : a = rowKey (⟨g, p, s⟩ : PlayerGameStatsRow) :=
      List.mem_singleton.mp hb
    obtain ⟨r, hrt, hkey⟩ := List.mem_map.mp ha
    have := List.any_eq_false.mp han' r hrt
    simp only [decide_eq_true_eq] at this
    exact this (by rw [hkey, ha']; rfl)

/-- Rewriting the row of a present key in place leaves exactly that one row
carrying the key, with the new stat values. -/
theorem replace_filter_stats (g p : Nat) (s : PlayerStats) :
    ∀ t : List PlayerGameStatsRow, (t.map rowKey).Nodup →
      t.any (fun r => decide (rowKey r = (g, p))) = true →
      ((t.map (fun r => if rowKey r = (g, p) then ⟨g, p, s⟩ else r)).filter
        (fun r => decide (rowKey r = (g, p)))).map (fun r => r.stats) = [s] := by
  intro t
  induction t with
  | nil => intro _ hany; simp at hany
  | cons r t ih =>
    intro hnd hany
    rw [List.map_cons] at hnd
    have hhead := (List.nodup_cons.mp hnd).1
    have hnd' := (List.nodup_cons.mp hnd).2
    by_cases hr : rowKey r = (g, p)
    · have htail : (t.map (fun r' =>
          if rowKey r' = (g, p) then ⟨g, p, s⟩ else r')).filter
          (fun r' => decide (rowKey r' = (g, p))) = [] := by
        rw [List.filter_eq_nil_iff]
        intro a ha
        obtain ⟨r', hr't, hEq⟩ := List.mem_map.mp ha
        have hr'key : ¬ rowKey r' = (g, p) := by
          intro hk
          exact hhead (hr ▸ hk ▸ List.mem_map_of_mem rowKey hr't)
        subst hEq
        simp [hr'key]
      simp only [List.map_cons, if_pos hr, List.filter_cons, htail]
      simp [rowKey]
    · have hany' : t.any (fun r' => decide (rowKey r' = (g, p))) = true := by
        simp only [List.any_cons, Bool.or_eq_true, decide_eq_true_eq] at hany
        rcases hany with h | h
        · exact absurd h hr
        · exact h
      simp only [List.map_cons, if_neg hr, List.filter_cons]
      rw [if_neg (by simpa using hr)]
      exact ih hnd' hany'

/-- After an upsert on a key-unique table, exactly one row carries the
upserted key and its stat fields are wholly the upserted values. -/
theorem upsert_filter_stats (g p : Nat) (s : PlayerStats)
    (t : List PlayerGameStatsRow) (ht : uniqueKeyed t) :
    ((upsert_player_stats t g p s).filter
      (fun r => decide (rowKey r = (g, p)))).map (fun r => r.stats) = [s] := by
  unfold upsert_player_stats
  by_cases han : t.any (fun r => decide (rowKey r = (g, p))) = true
  · simp only [han, if_true]
    exact replace_filter_stats g p s t ht han
  · have han' : t.any (fun r => decide (rowKey r = (g, p))) = false :=
      Bool.eq_false_iff.mpr han
    simp only [han', Bool.false_eq_true, if_false]
    rw [List.filter_append]
    have hnil : t.filter (fun r => decide (rowKey r = (g, p))) = [] := by
      rw [List.filter_eq_nil_iff]
      intro a ha
      exact List.any_eq_false.mp han' a ha
    rw [hnil]
    simp [rowKey]

/-- C4: any sequence of `upsert_player_stats` calls starting from an empty
table leaves at most one `player_game_stats` row per (game, player) key; and
upserting the same key twice on a key-unique table leaves exactly one row for
that key whose every stat field is the second write's value. -/
theorem upsert_player_stats_spec :
    (∀ calls : List (Nat × Nat × PlayerStats),
      uniqueKeyed (calls.foldl
        (fun acc c => upsert_player_stats acc c.1 c.2.1 c.2.2) [])) ∧
    (∀ (t : List PlayerGameStatsRow) (g p : Nat) (s1 s2 : PlayerStats),
      uniqueKeyed t →
        ((upsert_player_stats (upsert_player_stats t g p s1) g p s2).filter
          (fun r => decide (rowKey r = (g, p)))).map
          (fun r => r.stats) = [s2]) := by
  constructor
  · have hfold : ∀ (calls : List (Nat × Nat × PlayerStats))
        (t : List PlayerGameStatsRow), uniqueKeyed t →
        uniqueKeyed (calls.foldl
          (fun acc c => upsert_player_stats acc c.1 c.2.1 c.2.2) t) := by
      intro calls
      induction calls with
      | nil => intro t ht; exact ht
      | cons c cs ih =>
        intro t ht
        exact ih _ (uniqueKeyed_upsert t c.1 c.2.1 c.2.2 ht)
    intro calls
    exact hfold calls [] (by simp [uniqueKeyed])
  · intro t g p s1 s2 ht
    exact upsert_filter_stats g p s2 _ (uniqueKeyed_upsert t g p s1 ht)

/-- Closed instance of the C4 theorem: a double upsert of the same key on the
empty table keeps only the second stat line. -/
theorem upsert_player_stats_spec_witness :
    uniqueKeyed ([] : List PlayerGameStatsRow) ∧
    ((upsert_player_stats (upsert_player_stats [] 1 2 zeroMinutesLine) 1 2
        sampleStatLine).filter (fun r => decide (rowKey r = (1, 2)))).map
      (fun r => r.stats) = [sampleStatLine] :=
  ⟨by simp [uniqueKeyed],
    upsert_player_stats_spec.2 [] 1 2 zeroMinutesLine sampleStatLine
      (by simp [uniqueKeyed])⟩

end BBallTracker
